import Mathlib

/-!
Verification of the download-validate-dedup pipeline of `answer.py`
(Ubuntu Image Fetcher).

The Python source is shallowly embedded: the filesystem is a flat
association list from full file paths to byte contents, the running
hash index is a list of digest strings with set-insertion semantics
(Python `set.add`), and `download_image` is translated branch by
branch, including its two `except` handlers.  SHA-256 is abstracted as
an explicit hash-function parameter, since no property below depends
on the digest values themselves, only on equality of digests.
-/

set_option autoImplicit false

namespace ImageFetcher

/-! ## Data model -/

/-- File contents: a sequence of bytes (values of the bytes written to disk). -/
abbrev Bytes := List Nat

/-- A flat filesystem: an association list from full file paths to contents.
Every entry is a regular file; directories are implicit in the path strings. -/
abbrev FS := List (String × Bytes)

/-- Look up the contents of the file at path `k`, if it exists. -/
def FS.lookup (fs : FS) (k : String) : Option Bytes :=
  match fs with
  | [] => none
  | (k', v) :: rest => if k' = k then some v else FS.lookup rest k

/-- Delete the file at path `k` (embeds `os.remove`; a no-op if absent,
which never happens on the paths the pipeline takes). -/
def FS.remove (fs : FS) (k : String) : FS :=
  match fs with
  | [] => []
  | (k', v) :: rest =>
    if k' = k then FS.remove rest k else (k', v) :: FS.remove rest k

/-- Create or truncate-and-write the file at path `k` with contents `v`
(embeds `open(k, 'wb')` followed by writing all chunks). -/
def FS.write (fs : FS) (k : String) (v : Bytes) : FS :=
  (k, v) :: FS.remove fs k

/-- Rename `src` to `dst` as one operation, replacing any existing `dst`
(embeds `os.rename`; if `src` is absent it is the identity, which never
happens on the paths the pipeline takes). -/
def FS.rename (fs : FS) (src dst : String) : FS :=
  match FS.lookup fs src with
  | some v => FS.write (FS.remove fs src) dst v
  | none => fs

/-! ## String helpers of the source and its library calls -/

/-- Embeds Python `str.lower()` on the ASCII header strings the pipeline
handles: lowercase every character. -/
def pyLower (s : String) : String :=
  ⟨s.data.map Char.toLower⟩

/-- Parse a non-empty all-digit character list as a decimal number. -/
def digitsToNat : List Char → Option Nat
  | [] => none
  | l =>
    l.foldl
      (fun acc c =>
        acc.bind (fun n => if c.isDigit then some (10 * n + (c.toNat - 48)) else none))
      (some 0)

/-- Embeds Python `int(s)` as used on the `content-length` header at line 43:
`some n` for an optionally-signed decimal numeral, `none` when `int` would
raise `ValueError` (the claims only exercise plain numerals and non-numeric
strings, where this parse agrees with Python). -/
def pyInt (s : String) : Option Int :=
  match s.data with
  | [] => none
  | c :: rest =>
    if c = '-' then (digitsToNat rest).map (fun n => -(n : Int))
    else if c = '+' then (digitsToNat rest).map (fun n => (n : Int))
    else (digitsToNat (c :: rest)).map (fun n => (n : Int))

/-- Embeds `is_valid_image_content_type` (lines 16-19): lowercase the header
and test membership in the fixed allow-list. -/
def is_valid_image_content_type (content_type : String) : Bool :=
  let valid_types := ["image/jpeg", "image/png", "image/gif", "image/bmp"]
  valid_types.contains (pyLower content_type)

/-- Embeds Python stdlib `mimetypes.guess_extension` as called at lines 52-53:
the lookup lowercases its argument; the table is restricted to the image
types on the validator's allow-list, which are the only content types that
can reach this call in `download_image` (validation at line 37 precedes it). -/
def guess_extension (content_type : String) : Option String :=
  let t := pyLower content_type
  if t = "image/jpeg" then some ".jpg"
  else if t = "image/png" then some ".png"
  else if t = "image/gif" then some ".gif"
  else if t = "image/bmp" then some ".bmp"
  else none

/-- Embeds `urlparse(url).path` (line 48) for the `http://`/`https://` URLs
that `main` lets through: drop the scheme and the network location (up to the
first slash), then cut the path at the start of the query or fragment. -/
def url_path (url : String) : String :=
  let rest :=
    if "http://".data.isPrefixOf url.data then url.data.drop 7
    else if "https://".data.isPrefixOf url.data then url.data.drop 8
    else url.data
  ⟨(rest.dropWhile (fun c => c ≠ '/')).takeWhile (fun c => c ≠ '?' ∧ c ≠ '#')⟩

/-- Embeds `os.path.basename` (line 49): everything after the last slash. -/
def basename (p : String) : String :=
  ⟨p.data.foldl (fun acc c => if c = '/' then [] else acc ++ [c]) []⟩

/-- Embeds the filename determination of `download_image` (lines 47-54).
`now` stands for `datetime.now().strftime('%Y%m%d_%H%M%S')`, passed in as a
parameter because it is the only environment-dependent input of this step. -/
def derive_filename (url content_type now : String) : String :=
  let filename := basename (url_path url)
  if filename = "" ∨ guess_extension content_type = none then
    let extension := (guess_extension content_type).getD ".jpg"
    "image_" ++ now ++ extension
  else filename

/-! ## The pipeline -/

/-- Embeds `calculate_file_hash` (lines 8-14): read the file at `filepath`
back in fixed-size blocks and digest the whole contents.  Reading in 4096-byte
blocks concatenates back to the full contents, so the embedding hashes the
looked-up contents directly; SHA-256 itself is the abstract parameter `hash`. -/
def calculate_file_hash (hash : Bytes → String) (fs : FS) (filepath : String) : String :=
  hash ((fs.lookup filepath).getD [])

/-- One HTTP response as `download_image` observes it.  `reqError` means
`requests.get` or `raise_for_status` raised (transport error or non-2xx);
`streamError` means `iter_content` raised a `RequestException` mid-stream,
after the bytes of `body` had already been received and written. -/
structure Response where
  reqError : Bool
  contentType : String
  contentLength : Option String
  body : Bytes
  streamError : Bool
deriving DecidableEq, Repr

/-- The state one `download_image` call reads and mutates: the filesystem and
the shared `existing_hashes` set (kept as a list with set-insertion). -/
structure PState where
  fs : FS
  hashes : List String
deriving DecidableEq, Repr

/-- Observable outcome of one `download_image` call.  `success`/`failure`
carry the filename and the diagnostic reason of the `return True`/`return
False` paths; `pyError` records an exception that escapes the function
unhandled and aborts the batch. -/
inductive DLOutcome where
  | success (filename : String)
  | failure (reason : String)
  | pyError (exn : String)
deriving DecidableEq, Repr

/-- Embeds lines 47-77 of `download_image`: filename determination, streaming
the body into `<filepath>.tmp`, hashing the staged file, duplicate rejection
(lines 66-69) and promotion by `os.rename` plus hash-index insertion (lines
71-77).  `os.path.join` is embedded as concatenation with a slash, which
matches it for the relative filenames this pipeline produces.  A
`RequestException` from `iter_content` mid-stream jumps to the handler at
line 79, which returns without deleting the staged file. -/
def stage_and_dedup (hash : Bytes → String) (url output_dir now : String)
    (r : Response) (st : PState) : DLOutcome × PState :=
  let filename := derive_filename url r.contentType now
  let filepath := output_dir ++ "/" ++ filename
  let temp_filepath := filepath ++ ".tmp"
  let fs1 := st.fs.write temp_filepath r.body
  if r.streamError then
    (.failure "network error", ⟨fs1, st.hashes⟩)
  else
    let file_hash := calculate_file_hash hash fs1 temp_filepath
    if file_hash ∈ st.hashes then
      (.failure "duplicate image detected", ⟨fs1.remove temp_filepath, st.hashes⟩)
    else
      (.success filename, ⟨fs1.rename temp_filepath filepath, st.hashes.insert file_hash⟩)

/-- Embeds `download_image` (lines 21-86).  The guards run in source order:
request/status errors first (handler at line 79), then the content-type check
(line 37), then the content-length check (line 43) whose `int()` call raises
`ValueError` on a non-integer header — caught by the generic handler at line
82, whose `os.path.exists(temp_filepath)` then raises `UnboundLocalError`
because `temp_filepath` is only assigned at line 59, after this point. -/
def download_image (hash : Bytes → String) (url output_dir now : String)
    (r : Response) (st : PState) : DLOutcome × PState :=
  if r.reqError then
    (.failure "network error", st)
  else if ¬ is_valid_image_content_type r.contentType then
    (.failure "invalid content type", st)
  else
    match r.contentLength with
    | none => stage_and_dedup hash url output_dir now r st
    | some s =>
      if s = "" then stage_and_dedup hash url output_dir now r st
      else
        match pyInt s with
        | none => (.pyError "UnboundLocalError: temp_filepath", st)
        | some n =>
          if n > 10 * 1024 * 1024 then (.failure "file too large", st)
          else stage_and_dedup hash url output_dir now r st

/-- `true` exactly when the content-length guard at line 43 lets the response
through to the staging phase: the header is absent or empty (falsy), or it
parses to a number of at most 10 MiB. -/
def passes_length_check (r : Response) : Bool :=
  match r.contentLength with
  | none => true
  | some s =>
    if s = "" then true
    else
      match pyInt s with
      | none => false
      | some n => decide (¬ n > 10 * 1024 * 1024)

/-- `true` exactly when path `p` names a directory entry of `dir` in the flat
filesystem: `p` is `dir ++ "/" ++ name` for a slash-free `name`. -/
def in_dir (dir p : String) : Bool :=
  (dir.data ++ ['/']).isPrefixOf p.data && !(p.data.drop (dir.data.length + 1)).contains '/'

/-- Embeds the hash-index initialization of `main` (lines 98-102): iterate
over the entries of the output directory and add the digest of every regular
file to the (initially empty) `existing_hashes` set. -/
def init_hashes (hash : Bytes → String) (fs : FS) (output_dir : String) : List String :=
  (fs.filter (fun e => in_dir output_dir e.1)).foldl
    (fun acc e => acc.insert (hash e.2)) []

/-! ## Basic lemmas about the filesystem model -/

theorem FS.lookup_write_self (fs : FS) (k : String) (v : Bytes) :
    (fs.write k v).lookup k = some v := by
  simp [FS.write, FS.lookup]

theorem FS.lookup_remove_self (fs : FS) (k : String) :
    (fs.remove k).lookup k = none := by
  induction fs with
  | nil => rfl
  | cons e rest ih =>
    obtain ⟨k', v⟩ := e
    by_cases h : k' = k <;> simp [FS.remove, FS.lookup, h, ih]

theorem FS.lookup_remove_ne (fs : FS) (k q : String) (h : q ≠ k) :
    (fs.remove k).lookup q = fs.lookup q := by
  induction fs with
  | nil => rfl
  | cons e rest ih =>
    obtain ⟨k', v⟩ := e
    by_cases hk : k' = k
    · subst hk
      simp [FS.remove, FS.lookup, Ne.symm h, ih]
    · by_cases hq : k' = q
      · subst hq
        simp [FS.remove, FS.lookup, hk]
      · simp [FS.remove, FS.lookup, hk, hq, ih]

theorem FS.lookup_write_ne (fs : FS) (k q : String) (v : Bytes) (h : q ≠ k) :
    (fs.write k v).lookup q = fs.lookup q := by
  simp [FS.write, FS.lookup, Ne.symm h, FS.lookup_remove_ne fs k q h]

theorem FS.remove_eq_of_lookup_none (fs : FS) (k : String)
    (h : fs.lookup k = none) : fs.remove k = fs := by
  induction fs with
  | nil => rfl
  | cons e rest ih =>
    obtain ⟨k', v⟩ := e
    by_cases hk : k' = k
    · simp [FS.lookup, hk] at h
    · simp [FS.lookup, hk] at h
      simp [FS.remove, hk, ih h]

theorem FS.remove_remove_self (fs : FS) (k : String) :
    (fs.remove k).remove k = fs.remove k :=
  FS.remove_eq_of_lookup_none _ _ (FS.lookup_remove_self fs k)

theorem FS.remove_write_self (fs : FS) (k : String) (v : Bytes) :
    (fs.write k v).remove k = fs.remove k := by
  simp [FS.write, FS.remove, FS.remove_remove_self]

theorem FS.rename_write (fs : FS) (src dst : String) (v : Bytes) :
    (fs.write src v).rename src dst = (fs.remove src).write dst v := by
  simp [FS.rename, FS.lookup_write_self, FS.remove_write_self]

theorem String.data_append_eq (s t : String) : (s ++ t).data = s.data ++ t.data := by
  cases s
  cases t
  rfl

theorem append_tmp_ne (s : String) : s ++ ".tmp" ≠ s := by
  intro h
  have h2 := congrArg (fun t : String => t.data.length) h
  simp [String.data_append_eq] at h2

/-! ## Bridge lemmas: reducing `download_image` to its staging phase -/

theorem download_image_eq_stage (hash : Bytes → String) (url output_dir now : String)
    (r : Response) (st : PState)
    (h1 : r.reqError = false)
    (h2 : is_valid_image_content_type r.contentType = true)
    (h3 : passes_length_check r = true) :
    download_image hash url output_dir now r st = stage_and_dedup hash url output_dir now r st := by
  unfold passes_length_check at h3
  cases hcl : r.contentLength with
  | none => simp [download_image, h1, h2, hcl]
  | some s =>
    rw [hcl] at h3
    by_cases hs : s = ""
    · simp [download_image, h1, h2, hcl, hs]
    · simp only [hs, if_false] at h3
      cases hp : pyInt s with
      | none => rw [hp] at h3; simp at h3
      | some n =>
        rw [hp] at h3
        simp only [decide_eq_true_eq] at h3
        simp [download_image, h1, h2, hcl, hs, hp, h3]
        intro hn
        exact absurd hn (by omega)

theorem stage_duplicate (hash : Bytes → String) (url output_dir now : String)
    (r : Response) (st : PState)
    (h4 : r.streamError = false)
    (h5 : hash r.body ∈ st.hashes) :
    stage_and_dedup hash url output_dir now r st =
      (.failure "duplicate image detected",
       ⟨st.fs.remove (output_dir ++ "/" ++ derive_filename url r.contentType now ++ ".tmp"),
        st.hashes⟩) := by
  unfold stage_and_dedup
  rw [h4]
  simp [calculate_file_hash, FS.lookup_write_self, FS.remove_write_self, h5]

theorem stage_success (hash : Bytes → String) (url output_dir now : String)
    (r : Response) (st : PState)
    (h4 : r.streamError = false)
    (h5 : hash r.body ∉ st.hashes) :
    stage_and_dedup hash url output_dir now r st =
      (.success (derive_filename url r.contentType now),
       ⟨(st.fs.write (output_dir ++ "/" ++ derive_filename url r.contentType now ++ ".tmp")
           r.body).rename
          (output_dir ++ "/" ++ derive_filename url r.contentType now ++ ".tmp")
          (output_dir ++ "/" ++ derive_filename url r.contentType now),
        st.hashes.insert (hash r.body)⟩) := by
  unfold stage_and_dedup
  rw [h4]
  simp [calculate_file_hash, FS.lookup_write_self, h5]

theorem stage_success_filename (hash : Bytes → String) (url output_dir now : String)
    (r : Response) (st : PState) (f : String) (st' : PState)
    (h : stage_and_dedup hash url output_dir now r st = (.success f, st')) :
    f = derive_filename url r.contentType now := by
  simp only [stage_and_dedup] at h
  split at h
  · exact absurd h (by simp)
  · split at h
    · exact absurd h (by simp)
    · simp only [Prod.mk.injEq, DLOutcome.success.injEq] at h
      exact h.1.symm

theorem mem_foldl_insert_of_mem_acc (f : String × Bytes → String)
    (l : List (String × Bytes)) (acc : List String) (x : String) (h : x ∈ acc) :
    x ∈ l.foldl (fun a e => a.insert (f e)) acc := by
  induction l generalizing acc with
  | nil => exact h
  | cons e rest ih => exact ih _ (List.mem_insert_of_mem h)

theorem mem_foldl_insert (f : String × Bytes → String)
    (l : List (String × Bytes)) (acc : List String) (e : String × Bytes) (he : e ∈ l) :
    f e ∈ l.foldl (fun a e => a.insert (f e)) acc := by
  induction l generalizing acc with
  | nil => cases he
  | cons hd rest ih =>
    rcases List.mem_cons.mp he with h | h
    · subst h
      exact mem_foldl_insert_of_mem_acc f rest _ _ (List.mem_insert_self _ _)
    · exact ih _ h

theorem mem_init_hashes (hash : Bytes → String) (fs : FS) (output_dir p : String) (b : Bytes)
    (hmem : (p, b) ∈ fs) (hdir : in_dir output_dir p = true) :
    hash b ∈ init_hashes hash fs output_dir := by
  unfold init_hashes
  exact mem_foldl_insert _ _ _ (p, b) (List.mem_filter.mpr ⟨hmem, hdir⟩)

/-! ## The claims -/

/-- C3: the content-type validation accepts exactly the declared MIME types
that, compared case-insensitively, equal one of `image/jpeg`, `image/png`,
`image/gif`, `image/bmp`; every other declared content type (including the
empty one that stands in for a missing header) makes `download_image` reject
with reason "invalid content type" and leave the state untouched. -/
theorem content_type_allowlist (ct : String) :
    (is_valid_image_content_type ct = true ↔
      (pyLower ct = "image/jpeg" ∨ pyLower ct = "image/png" ∨
       pyLower ct = "image/gif" ∨ pyLower ct = "image/bmp"))
  ∧ (∀ (hash : Bytes → String) (url output_dir now : String) (r : Response) (st : PState),
      r.reqError = false → r.contentType = ct →
      is_valid_image_content_type ct = false →
      download_image hash url output_dir now r st = (.failure "invalid content type", st)) := by
  constructor
  · simp [is_valid_image_content_type, List.contains, List.elem_eq_mem, List.mem_cons]
  · intro hash url output_dir now r st h1 hct hinv
    rw [← hct] at hinv
    simp [download_image, h1, hinv]

/-- Witness for C3 at concrete inputs: `IMAGE/png` is accepted by the
case-insensitive allow-list, and a `text/html` response is rejected with
"invalid content type" without touching the state. -/
theorem content_type_allowlist_witness :
    is_valid_image_content_type "IMAGE/png" = true
  ∧ download_image (fun _ => "H") "http://e/x" "d" "t"
      ⟨false, "text/html", none, [], false⟩ ⟨[], []⟩
      = (.failure "invalid content type", ⟨[], []⟩) :=
  ⟨(content_type_allowlist "IMAGE/png").1.mpr (by decide),
   (content_type_allowlist "text/html").2 (fun _ => "H") "http://e/x" "d" "t"
     ⟨false, "text/html", none, [], false⟩ ⟨[], []⟩ rfl rfl (by decide)⟩

/-- C10: the content-type check compares the whole lowercased header string
for exact equality with the allow-list entries, so a header carrying MIME
parameters or extra characters — `image/png; charset=utf-8`, ` image/png` —
is rejected even though its media type is on the allow-list, and
`download_image` then fails with "invalid content type". -/
theorem content_type_exact_equality :
    (∀ ct : String, is_valid_image_content_type ct = true →
      pyLower ct ∈ (["image/jpeg", "image/png", "image/gif", "image/bmp"] : List String))
  ∧ is_valid_image_content_type "image/png; charset=utf-8" = false
  ∧ is_valid_image_content_type " image/png" = false
  ∧ (∀ (hash : Bytes → String) (url output_dir now : String) (r : Response) (st : PState),
      r.reqError = false → r.contentType = "image/png; charset=utf-8" →
      download_image hash url output_dir now r st = (.failure "invalid content type", st)) := by
  refine ⟨?_, by decide, by decide, ?_⟩
  · intro ct h
    unfold is_valid_image_content_type at h
    simpa [List.elem_eq_mem] using h
  · intro hash url output_dir now r st h1 hct
    have hinv : is_valid_image_content_type r.contentType = false := by
      rw [hct]
      decide
    simp [download_image, h1, hinv]

/-- Witness for C10: a parameterized `image/png` header is rejected by the
pipeline at a concrete input. -/
theorem content_type_exact_equality_witness :
    download_image (fun _ => "H") "http://e/x" "d" "t"
      ⟨false, "image/png; charset=utf-8", none, [], false⟩ ⟨[], []⟩
      = (.failure "invalid content type", ⟨[], []⟩) :=
  content_type_exact_equality.2.2.2 (fun _ => "H") "http://e/x" "d" "t"
    ⟨false, "image/png; charset=utf-8", none, [], false⟩ ⟨[], []⟩ rfl rfl

/-- C4 counterexample: a response with declared length 20,000,000 (> 10 MiB)
but content type `text/html` is rejected with "invalid content type", not
"file too large" — the content-type check at line 37 runs before the length
check at line 43, so the claimed reason does not hold regardless of content
type. -/
theorem size_check_order_counterexample :
    (download_image (fun _ => "H") "http://e/a.png" "d" "t"
        ⟨false, "text/html", some "20000000", [], false⟩ ⟨[], []⟩).1
      = .failure "invalid content type"
  ∧ (download_image (fun _ => "H") "http://e/a.png" "d" "t"
        ⟨false, "text/html", some "20000000", [], false⟩ ⟨[], []⟩).1
      ≠ .failure "file too large" := by
  constructor
  · decide
  · decide

/-- C4 (amended): a response whose declared content length parses to more
than 10,485,760 bytes is always rejected, with reason "file too large" when
the declared content type is on the allow-list and with reason "invalid
content type" otherwise (the type check runs first); the state is untouched. -/
theorem declared_size_limit (hash : Bytes → String) (url output_dir now : String)
    (r : Response) (st : PState) (s : String) (n : Int)
    (h1 : r.reqError = false)
    (hcl : r.contentLength = some s) (hs : s ≠ "")
    (hn : pyInt s = some n) (hgt : n > 10485760) :
    download_image hash url output_dir now r st =
      (.failure (if is_valid_image_content_type r.contentType then "file too large"
                 else "invalid content type"), st) := by
  have hgt' : n > 10 * 1024 * 1024 := by omega
  by_cases hv : is_valid_image_content_type r.contentType
  · simp [download_image, h1, hv, hcl, hs, hn, hgt']
    exact fun hle => absurd hgt (by omega)
  · simp [download_image, h1, hv, hcl, hs, hn, hgt']

/-- Witness for the amended C4: a valid `image/png` response declaring
20,000,001 bytes is rejected with "file too large". -/
theorem declared_size_limit_witness :
    download_image (fun _ => "H") "http://e/a.png" "d" "t"
      ⟨false, "image/png", some "20000001", [], false⟩ ⟨[], []⟩
      = (.failure "file too large", ⟨[], []⟩) := by
  have h := declared_size_limit (fun _ => "H") "http://e/a.png" "d" "t"
    ⟨false, "image/png", some "20000001", [], false⟩ ⟨[], []⟩ "20000001" 20000001
    rfl rfl (by decide) (by decide) (by decide)
  rw [h]
  decide

/-- C5 fails on the code: when `iter_content` raises a network error
mid-stream (after bytes were already written to the staged file), control
reaches the `RequestException` handler at line 79, which returns False
without deleting the staged file, so `<final>.tmp` remains in the output
directory after the call completes. -/
theorem tmp_left_after_stream_error :
    (download_image (fun _ => "H") "http://e/cat.png" "d" "t"
        ⟨false, "image/png", none, [1, 2], true⟩ ⟨[], []⟩).1 = .failure "network error"
  ∧ (download_image (fun _ => "H") "http://e/cat.png" "d" "t"
        ⟨false, "image/png", none, [1, 2], true⟩ ⟨[], []⟩).2.fs.lookup "d/cat.png.tmp"
      = some [1, 2] := by
  constructor
  · decide
  · decide

/-- C6 fails on the code: a non-integer `content-length` header makes
`int(content_length)` at line 43 raise `ValueError`; the generic handler at
line 82 then evaluates `os.path.exists(temp_filepath)` with `temp_filepath`
still unassigned (it is only bound at line 59), raising `UnboundLocalError`
out of `download_image` — an unhandled crash of the whole batch instead of a
per-URL failure. -/
theorem crash_on_malformed_content_length :
    download_image (fun _ => "H") "http://e/a.png" "d" "t"
      ⟨false, "image/png", some "abc", [], false⟩ ⟨[], []⟩
      = (.pyError "UnboundLocalError: temp_filepath", ⟨[], []⟩) := by
  decide

/-- C1: a staged download whose computed content hash is already in the hash
index makes the pipeline delete the staged temporary file and return the
"duplicate image detected" failure; the hash index is unchanged and every
file other than the staged one keeps exactly its previous contents. -/
theorem duplicate_rejected (hash : Bytes → String) (url output_dir now : String)
    (r : Response) (st : PState) (temp : String)
    (h1 : r.reqError = false)
    (h2 : is_valid_image_content_type r.contentType = true)
    (h3 : passes_length_check r = true)
    (h4 : r.streamError = false)
    (h5 : hash r.body ∈ st.hashes)
    (htemp : temp = output_dir ++ "/" ++ derive_filename url r.contentType now ++ ".tmp") :
    (download_image hash url output_dir now r st).1 = .failure "duplicate image detected"
  ∧ (download_image hash url output_dir now r st).2.hashes = st.hashes
  ∧ (download_image hash url output_dir now r st).2.fs.lookup temp = none
  ∧ ∀ q : String, q ≠ temp →
      (download_image hash url output_dir now r st).2.fs.lookup q = st.fs.lookup q := by
  subst htemp
  rw [download_image_eq_stage hash url output_dir now r st h1 h2 h3,
    stage_duplicate hash url output_dir now r st h4 h5]
  refine ⟨rfl, rfl, FS.lookup_remove_self _ _, ?_⟩
  intro q hq
  exact FS.lookup_remove_ne _ _ _ hq

/-- Witness for C1: rejecting a duplicate body `[7]` whose digest is already
indexed leaves the filesystem empty and the index as it was. -/
theorem duplicate_rejected_witness :
    (download_image (fun _ => "H") "http://e/cat.png" "d" "t"
        ⟨false, "image/png", none, [7], false⟩ ⟨[], ["H"]⟩).1
      = .failure "duplicate image detected"
  ∧ (download_image (fun _ => "H") "http://e/cat.png" "d" "t"
        ⟨false, "image/png", none, [7], false⟩ ⟨[], ["H"]⟩).2.hashes = ["H"] :=
  ⟨(duplicate_rejected (fun _ => "H") "http://e/cat.png" "d" "t"
      ⟨false, "image/png", none, [7], false⟩ ⟨[], ["H"]⟩ "d/cat.png.tmp"
      rfl (by decide) (by decide) rfl (by decide) (by decide)).1,
   (duplicate_rejected (fun _ => "H") "http://e/cat.png" "d" "t"
      ⟨false, "image/png", none, [7], false⟩ ⟨[], ["H"]⟩ "d/cat.png.tmp"
      rfl (by decide) (by decide) rfl (by decide) (by decide)).2.1⟩

/-- C2: a fetched response whose computed hash is not yet indexed is promoted
by renaming the staged temporary file to its final path in one `FS.rename`
operation; the computed hash is inserted into the index and the call returns
success with the final filename.  Afterwards the final path holds the body,
the staged path is gone, and the new hash is a member of the index. -/
theorem nonduplicate_promoted (hash : Bytes → String) (url output_dir now : String)
    (r : Response) (st : PState) (filename filepath temp : String)
    (h1 : r.reqError = false)
    (h2 : is_valid_image_content_type r.contentType = true)
    (h3 : passes_length_check r = true)
    (h4 : r.streamError = false)
    (h5 : hash r.body ∉ st.hashes)
    (hf : filename = derive_filename url r.contentType now)
    (hp : filepath = output_dir ++ "/" ++ filename)
    (ht : temp = filepath ++ ".tmp") :
    download_image hash url output_dir now r st =
      (.success filename,
       ⟨(st.fs.write temp r.body).rename temp filepath, st.hashes.insert (hash r.body)⟩)
  ∧ ((st.fs.write temp r.body).rename temp filepath).lookup filepath = some r.body
  ∧ ((st.fs.write temp r.body).rename temp filepath).lookup temp = none
  ∧ hash r.body ∈ st.hashes.insert (hash r.body) := by
  subst hf hp ht
  rw [download_image_eq_stage hash url output_dir now r st h1 h2 h3,
    stage_success hash url output_dir now r st h4 h5]
  refine ⟨rfl, ?_, ?_, List.mem_insert_self _ _⟩
  · rw [FS.rename_write]
    exact FS.lookup_write_self _ _ _
  · rw [FS.rename_write, FS.lookup_write_ne _ _ _ _ (append_tmp_ne _)]
    exact FS.lookup_remove_self _ _

/-- Witness for C2: downloading body `[7]` as `cat.png` into an empty state
yields exactly the final file and the one indexed digest. -/
theorem nonduplicate_promoted_witness :
    download_image (fun _ => "H") "http://e/cat.png" "d" "t"
      ⟨false, "image/png", none, [7], false⟩ ⟨[], []⟩
      = (.success "cat.png", ⟨[("d/cat.png", [7])], ["H"]⟩) := by
  rw [(nonduplicate_promoted (fun _ => "H") "http://e/cat.png" "d" "t"
      ⟨false, "image/png", none, [7], false⟩ ⟨[], []⟩ "cat.png" "d/cat.png" "d/cat.png.tmp"
      rfl (by decide) (by decide) rfl (by decide) (by decide) (by decide) (by decide)).1]
  decide

/-- C7: for an accepted response the final filename is the base name of the
URL's path component whenever that base name is non-empty and an extension
can be inferred from the declared content type; otherwise the name
`image_<timestamp><ext>` is synthesized with `<ext>` derived from the
declared content type, defaulting to `.jpg` when no mapping is known.  Every
success outcome of `download_image` carries exactly this derived filename. -/
theorem filename_determination (url content_type now : String) :
    (basename (url_path url) ≠ "" → guess_extension content_type ≠ none →
      derive_filename url content_type now = basename (url_path url))
  ∧ ((basename (url_path url) = "" ∨ guess_extension content_type = none) →
      derive_filename url content_type now
        = "image_" ++ now ++ (guess_extension content_type).getD ".jpg")
  ∧ (∀ (hash : Bytes → String) (output_dir : String) (r : Response) (st st' : PState)
       (f : String),
      download_image hash url output_dir now r st = (.success f, st') →
      f = derive_filename url r.contentType now) := by
  refine ⟨?_, ?_, ?_⟩
  · intro hb hg
    unfold derive_filename
    rw [if_neg]
    push_neg
    exact ⟨hb, hg⟩
  · intro h
    unfold derive_filename
    rw [if_pos h]
  · intro hash output_dir r st st' f h
    unfold download_image at h
    split at h
    · exact absurd h (by simp)
    · split at h
      · exact absurd h (by simp)
      · split at h
        · exact stage_success_filename _ _ _ _ _ _ _ _ h
        · split at h
          · exact stage_success_filename _ _ _ _ _ _ _ _ h
          · split at h
            · exact absurd h (by simp)
            · split at h
              · exact absurd h (by simp)
              · exact stage_success_filename _ _ _ _ _ _ _ _ h

/-- Witness for C7: a URL with a usable base name keeps it, and a URL with a
trailing slash gets the synthesized timestamp name with the extension of its
content type. -/
theorem filename_determination_witness :
    derive_filename "http://e/cat.png" "image/png" "ts"
      = basename (url_path "http://e/cat.png")
  ∧ derive_filename "https://example.com/" "image/jpeg" "ts"
      = "image_" ++ "ts" ++ (guess_extension "image/jpeg").getD ".jpg" :=
  ⟨(filename_determination "http://e/cat.png" "image/png" "ts").1 (by decide) (by decide),
   (filename_determination "https://example.com/" "image/jpeg" "ts").2.1 (Or.inl (by decide))⟩

/-- C8: running the pipeline twice on the same URL with the server returning
identical bytes yields exactly one final file — the first call succeeds and
creates only the final file (every other path is untouched), the second call
returns the "duplicate image detected" failure and leaves the state, hash
index included, exactly as the first call left it. -/
theorem second_run_duplicate (hash : Bytes → String) (url output_dir now : String)
    (r : Response) (st st1 : PState) (filename filepath temp : String)
    (h1 : r.reqError = false)
    (h2 : is_valid_image_content_type r.contentType = true)
    (h3 : passes_length_check r = true)
    (h4 : r.streamError = false)
    (h5 : hash r.body ∉ st.hashes)
    (hf : filename = derive_filename url r.contentType now)
    (hp : filepath = output_dir ++ "/" ++ filename)
    (ht : temp = filepath ++ ".tmp")
    (hst1 : st1 = (download_image hash url output_dir now r st).2) :
    (download_image hash url output_dir now r st).1 = .success filename
  ∧ st1.fs.lookup filepath = some r.body
  ∧ st1.fs.lookup temp = none
  ∧ (∀ q : String, q ≠ filepath → q ≠ temp → st1.fs.lookup q = st.fs.lookup q)
  ∧ st1.hashes = st.hashes.insert (hash r.body)
  ∧ (download_image hash url output_dir now r st1).1 = .failure "duplicate image detected"
  ∧ (download_image hash url output_dir now r st1).2 = st1 := by
  subst hf hp ht
  have key := (download_image_eq_stage hash url output_dir now r st h1 h2 h3).trans
    (stage_success hash url output_dir now r st h4 h5)
  rw [key] at hst1
  have hst1' : st1 =
      ⟨(st.fs.write (output_dir ++ "/" ++ derive_filename url r.contentType now ++ ".tmp")
          r.body).rename
         (output_dir ++ "/" ++ derive_filename url r.contentType now ++ ".tmp")
         (output_dir ++ "/" ++ derive_filename url r.contentType now),
       st.hashes.insert (hash r.body)⟩ := hst1
  subst hst1'
  have hlookup_temp :
      (((st.fs.write (output_dir ++ "/" ++ derive_filename url r.contentType now ++ ".tmp")
           r.body).rename
          (output_dir ++ "/" ++ derive_filename url r.contentType now ++ ".tmp")
          (output_dir ++ "/" ++ derive_filename url r.contentType now)).lookup
        (output_dir ++ "/" ++ derive_filename url r.contentType now ++ ".tmp")) = none := by
    rw [FS.rename_write, FS.lookup_write_ne _ _ _ _ (append_tmp_ne _)]
    exact FS.lookup_remove_self _ _
  have h5' : hash r.body ∈ st.hashes.insert (hash r.body) := List.mem_insert_self _ _
  have key2 := (download_image_eq_stage hash url output_dir now r
      ⟨(st.fs.write (output_dir ++ "/" ++ derive_filename url r.contentType now ++ ".tmp")
          r.body).rename
         (output_dir ++ "/" ++ derive_filename url r.contentType now ++ ".tmp")
         (output_dir ++ "/" ++ derive_filename url r.contentType now),
       st.hashes.insert (hash r.body)⟩ h1 h2 h3).trans
    (stage_duplicate hash url output_dir now r _ h4 h5')
  refine ⟨by rw [key], ?_, hlookup_temp, ?_, rfl, by rw [key2], ?_⟩
  · rw [FS.rename_write]
    exact FS.lookup_write_self _ _ _
  · intro q hq1 hq2
    rw [FS.rename_write, FS.lookup_write_ne _ _ _ _ hq1]
    exact FS.lookup_remove_ne _ _ _ hq2
  · rw [key2]
    dsimp only
    rw [FS.remove_eq_of_lookup_none _ _ hlookup_temp]

/-- Witness for C8: fetching `cat.png` (body `[7]`) into an empty state
succeeds; the second fetch of the same response against the resulting state
is rejected as a duplicate and changes nothing. -/
theorem second_run_duplicate_witness :
    (download_image (fun _ => "H") "http://e/cat.png" "d" "t"
        ⟨false, "image/png", none, [7], false⟩ ⟨[], []⟩).1 = .success "cat.png"
  ∧ (download_image (fun _ => "H") "http://e/cat.png" "d" "t"
        ⟨false, "image/png", none, [7], false⟩ ⟨[("d/cat.png", [7])], ["H"]⟩).1
      = .failure "duplicate image detected"
  ∧ (download_image (fun _ => "H") "http://e/cat.png" "d" "t"
        ⟨false, "image/png", none, [7], false⟩ ⟨[("d/cat.png", [7])], ["H"]⟩).2
      = ⟨[("d/cat.png", [7])], ["H"]⟩ :=
  ⟨(second_run_duplicate (fun _ => "H") "http://e/cat.png" "d" "t"
      ⟨false, "image/png", none, [7], false⟩ ⟨[], []⟩ ⟨[("d/cat.png", [7])], ["H"]⟩
      "cat.png" "d/cat.png" "d/cat.png.tmp"
      rfl (by decide) (by decide) rfl (by decide) (by decide) (by decide) (by decide)
      (by decide)).1,
   (second_run_duplicate (fun _ => "H") "http://e/cat.png" "d" "t"
      ⟨false, "image/png", none, [7], false⟩ ⟨[], []⟩ ⟨[("d/cat.png", [7])], ["H"]⟩
      "cat.png" "d/cat.png" "d/cat.png.tmp"
      rfl (by decide) (by decide) rfl (by decide) (by decide) (by decide) (by decide)
      (by decide)).2.2.2.2.2.1,
   (second_run_duplicate (fun _ => "H") "http://e/cat.png" "d" "t"
      ⟨false, "image/png", none, [7], false⟩ ⟨[], []⟩ ⟨[("d/cat.png", [7])], ["H"]⟩
      "cat.png" "d/cat.png" "d/cat.png.tmp"
      rfl (by decide) (by decide) rfl (by decide) (by decide) (by decide) (by decide)
      (by decide)).2.2.2.2.2.2⟩

/-- C9: the hash index a run starts with is built by digesting every regular
file already present in the output directory, so the digest of any
pre-existing file is indexed, and a fetched body with that digest is rejected
as a duplicate — the index is unchanged, the staged file is deleted and every
pre-existing file (in particular the one never downloaded this run) keeps its
contents. -/
theorem preexisting_hash_rejects (hash : Bytes → String) (url output_dir now p : String)
    (b : Bytes) (fs0 : FS) (r : Response) (temp : String)
    (hmem : (p, b) ∈ fs0) (hdir : in_dir output_dir p = true)
    (hbody : hash r.body = hash b)
    (h1 : r.reqError = false)
    (h2 : is_valid_image_content_type r.contentType = true)
    (h3 : passes_length_check r = true)
    (h4 : r.streamError = false)
    (htemp : temp = output_dir ++ "/" ++ derive_filename url r.contentType now ++ ".tmp") :
    hash b ∈ init_hashes hash fs0 output_dir
  ∧ (download_image hash url output_dir now r ⟨fs0, init_hashes hash fs0 output_dir⟩).1
      = .failure "duplicate image detected"
  ∧ (download_image hash url output_dir now r ⟨fs0, init_hashes hash fs0 output_dir⟩).2.hashes
      = init_hashes hash fs0 output_dir
  ∧ (download_image hash url output_dir now r
        ⟨fs0, init_hashes hash fs0 output_dir⟩).2.fs.lookup temp = none
  ∧ ∀ q : String, q ≠ temp →
      (download_image hash url output_dir now r
          ⟨fs0, init_hashes hash fs0 output_dir⟩).2.fs.lookup q = fs0.lookup q := by
  subst htemp
  have hm := mem_init_hashes hash fs0 output_dir p b hmem hdir
  have h5 : hash r.body ∈ (⟨fs0, init_hashes hash fs0 output_dir⟩ : PState).hashes := by
    rw [hbody]
    exact hm
  rw [download_image_eq_stage hash url output_dir now r _ h1 h2 h3,
    stage_duplicate hash url output_dir now r _ h4 h5]
  exact ⟨hm, rfl, rfl, FS.lookup_remove_self _ _, fun q hq => FS.lookup_remove_ne _ _ _ hq⟩

/-- Witness for C9: with `d/a.png` (contents `[7]`) already on disk, the
rebuilt index contains its digest and a fetch of `b.png` whose body digests
identically is rejected as a duplicate. -/
theorem preexisting_hash_rejects_witness :
    "H" ∈ init_hashes (fun _ => "H") [("d/a.png", [7])] "d"
  ∧ (download_image (fun _ => "H") "http://e/b.png" "d" "t"
        ⟨false, "image/png", none, [9], false⟩
        ⟨[("d/a.png", [7])], init_hashes (fun _ => "H") [("d/a.png", [7])] "d"⟩).1
      = .failure "duplicate image detected" :=
  ⟨(preexisting_hash_rejects (fun _ => "H") "http://e/b.png" "d" "t" "d/a.png" [7]
      [("d/a.png", [7])] ⟨false, "image/png", none, [9], false⟩ "d/b.png.tmp"
      (by decide) (by decide) rfl rfl (by decide) (by decide) rfl (by decide)).1,
   (preexisting_hash_rejects (fun _ => "H") "http://e/b.png" "d" "t" "d/a.png" [7]
      [("d/a.png", [7])] ⟨false, "image/png", none, [9], false⟩ "d/b.png.tmp"
      (by decide) (by decide) rfl rfl (by decide) (by decide) rfl (by decide)).2.1⟩

end ImageFetcher
